import Mathlib

/-!
Verification of `generate_basic_orc.py` (Defender of the Orcish Marches,
Blender asset generator).  The Python script is shallowly embedded:

* Every numeric literal the script feeds into poses and bone geometry is
  an exact two-decimal decimal, and every rotation it authors is a whole
  number of degrees (`swing*0.3 = 9`, `arm_sw*0.4 = 8` exactly).  We
  therefore store vectors as `V3` over `Int`: locations and bone
  head/tail coordinates in hundredths of a Blender unit (a literal `v`
  of the script appears here as `100*v`), rotations in degrees.  Both
  rescalings are exact and injective, so every equality, rest (= 0) and
  sign-flip statement proved here holds verbatim for the script's float
  values.  Likewise the script stores `math.radians(deg)` in
  `rotation_euler`; `deg ↦ deg·π/180` is injective and odd, so the same
  statements hold for the stored radian values.
* Imperative pose state (`arm_obj.pose.bones`, keyframe insertion)
  becomes explicit state passing on `AnimSt`.
* Blender datablock reference counting (`clear_scene`) becomes a scene
  state with computed user counts.
-/

/-- A 3-component vector (Blender `Vector` / euler triple).  Components
are exact integers: hundredths of a unit for locations/coordinates,
degrees for rotations (see the file header). -/
structure V3 where
  x : Int
  y : Int
  z : Int
deriving DecidableEq, Repr

/-- The rest value for both rotations and locations. -/
def V3.zero : V3 := ⟨0, 0, 0⟩

/-- Pose state of one bone: `rotation_euler` (degrees, see header) and
`location` (hundredths). -/
structure BonePose where
  rot : V3
  loc : V3
deriving DecidableEq, Repr

/-- Rest pose of a single bone: rotation `(0,0,0)`, location `(0,0,0)`. -/
def BonePose.rest : BonePose := ⟨V3.zero, V3.zero⟩

/-- The two keyed channels (`data_path` values used by the script). -/
inductive Channel where
  | rotationEuler
  | location
deriving DecidableEq, Repr

/-- One inserted keyframe: `pb.keyframe_insert(data_path=…, frame=…)`
records the bone's current channel value at that frame. -/
structure KeyEntry where
  bone : String
  channel : Channel
  frame : Nat
  value : V3
deriving DecidableEq, Repr

/-- Animation state: the current pose of every bone of the armature
(`arm_obj.pose.bones`) plus the keys inserted into the active action. -/
structure AnimSt where
  pose : List (String × BonePose)
  keys : List KeyEntry
deriving DecidableEq, Repr

/-- Model of `set_bone_rot(pb, x_deg, y_deg, z_deg)`: sets the bone's
`rotation_euler` (the script stores `math.radians` of each degree
value; we keep the degrees). -/
def set_bone_rot (st : AnimSt) (b : String) (xDeg yDeg zDeg : Int) : AnimSt :=
  { st with pose := st.pose.map fun np =>
      if np.1 = b then (np.1, { np.2 with rot := ⟨xDeg, yDeg, zDeg⟩ }) else np }

/-- Model of `set_bone_loc(pb, x, y, z_val)`: sets the bone's `location`
(hundredths of a unit). -/
def set_bone_loc (st : AnimSt) (b : String) (x y zVal : Int) : AnimSt :=
  { st with pose := st.pose.map fun np =>
      if np.1 = b then (np.1, { np.2 with loc := ⟨x, y, zVal⟩ }) else np }

/-- Model of `reset_pose(arm_obj)`: every pose bone back to rest. -/
def reset_pose (st : AnimSt) : AnimSt :=
  { st with pose := st.pose.map fun np => (np.1, BonePose.rest) }

/-- Model of `key_all_bones(arm_obj, frame)`: for every pose bone insert a
`rotation_euler` key and a `location` key at `frame`, recording the
bone's current values. -/
def key_all_bones (st : AnimSt) (frame : Nat) : AnimSt :=
  { st with keys :=
      (st.keys ++ st.pose.foldr
        (fun np acc =>
          ⟨np.1, Channel.rotationEuler, frame, np.2.rot⟩ ::
            ⟨np.1, Channel.location, frame, np.2.loc⟩ :: acc)
        []) }

/-- One explicit per-bone override authored at a keyframe: a
`set_bone_rot` or `set_bone_loc` call in the script. -/
inductive PoseOv where
  | rot (bone : String) (x y z : Int)
  | loc (bone : String) (x y z : Int)
deriving DecidableEq, Repr

/-- Apply one override to the current pose. -/
def applyOv (st : AnimSt) : PoseOv → AnimSt
  | .rot b x y z => set_bone_rot st b x y z
  | .loc b x y z => set_bone_loc st b x y z

/-- Bake one keyframe exactly as every keyframe block of the script
does: `reset_pose`, then the block's `set_bone_*` overrides in order,
then `key_all_bones(frame)`. -/
def bakeKeyframe (st : AnimSt) (frame : Nat) (ovs : List PoseOv) : AnimSt :=
  key_all_bones (ovs.foldl applyOv (reset_pose st)) frame

/-- Bake a whole clip: the keyframe blocks in script order. -/
def bakeClip (st : AnimSt) (kfs : List (Nat × List PoseOv)) : AnimSt :=
  kfs.foldl (fun s kf => bakeKeyframe s kf.1 kf.2) st

/-- Bone names of the orc armature, in `add_bone` creation order. -/
def orcBoneNames : List String :=
  ["Root", "Spine", "Head",
   "L_UpperArm", "L_ForeArm", "R_UpperArm", "R_ForeArm",
   "L_UpperLeg", "L_LowerLeg", "R_UpperLeg", "R_LowerLeg"]

/-- Pose state when an action starts being authored: every bone present.
Every clip's first keyframe block begins with `reset_pose`, so the pose
values here are immaterial; a fresh action has no keys. -/
def initAnimSt : AnimSt :=
  { pose := orcBoneNames.map fun n => (n, BonePose.rest), keys := [] }

/-- The `Walk` keyframes (`create_walk_cycle`): frames 1, 7, 13, 19, 25
with the exact `set_bone_rot` / `set_bone_loc` calls of the script
(`swing = 30`, `arm_sw = 20`, `bob = 0.02` i.e. 2 hundredths;
`-swing*0.3 = -9`, `-arm_sw*0.4 = -8`). -/
def walkKeyframes : List (Nat × List PoseOv) :=
  [ (1, []),
    (7, [ .rot "L_UpperLeg" 30 0 0,
          .rot "L_LowerLeg" (-9) 0 0,
          .rot "R_UpperLeg" (-30) 0 0,
          .rot "R_LowerLeg" 0 0 0,
          .rot "R_UpperArm" 20 0 0,
          .rot "R_ForeArm" (-8) 0 0,
          .rot "L_UpperArm" (-20) 0 0,
          .rot "L_ForeArm" 0 0 0,
          .loc "Root" 0 0 2,
          .rot "Spine" 0 0 3 ]),
    (13, []),
    (19, [ .rot "R_UpperLeg" 30 0 0,
           .rot "R_LowerLeg" (-9) 0 0,
           .rot "L_UpperLeg" (-30) 0 0,
           .rot "L_LowerLeg" 0 0 0,
           .rot "L_UpperArm" 20 0 0,
           .rot "L_ForeArm" (-8) 0 0,
           .rot "R_UpperArm" (-20) 0 0,
           .rot "R_ForeArm" 0 0 0,
           .loc "Root" 0 0 2,
           .rot "Spine" 0 0 (-3) ]),
    (25, []) ]

/-- The `Attack` keyframes (`create_attack_anim`): frames 1, 5, 8, 11,
14, 20 (locations ×100: `-0.02 ↦ -2`, `-0.03 ↦ -3`). -/
def attackKeyframes : List (Nat × List PoseOv) :=
  [ (1, []),
    (5, [ .rot "R_UpperArm" 0 0 (-70),
          .rot "R_ForeArm" (-30) 0 0,
          .rot "Spine" 0 0 (-5),
          .rot "Head" 0 0 0 ]),
    (8, [ .rot "R_UpperArm" 0 0 (-85),
          .rot "R_ForeArm" (-40) 0 0,
          .rot "Spine" (-5) 0 (-8),
          .rot "Head" 5 0 0 ]),
    (11, [ .rot "R_UpperArm" 15 0 30,
           .rot "R_ForeArm" 20 0 0,
           .rot "Spine" 8 0 5,
           .rot "Head" (-5) 0 0,
           .loc "Root" 0 (-2) (-3) ]),
    (14, [ .rot "R_UpperArm" 10 0 25,
           .rot "R_ForeArm" 15 0 0,
           .rot "Spine" 5 0 3,
           .loc "Root" 0 (-2) (-2) ]),
    (20, []) ]

/-- The `Die` keyframes (`create_die_anim`): frames 1, 6, 12, 20, 30
(locations ×100: `-0.05 ↦ -5`, `0.05 ↦ 5`, `-0.20 ↦ -20`, `0.15 ↦ 15`,
`-0.35 ↦ -35`, `0.30 ↦ 30`). -/
def dieKeyframes : List (Nat × List PoseOv) :=
  [ (1, []),
    (6, [ .rot "Spine" 15 0 0,
          .rot "Head" 10 0 5,
          .rot "R_UpperArm" 10 0 20,
          .rot "L_UpperArm" 10 0 (-20),
          .loc "Root" 0 (-2) 0 ]),
    (12, [ .rot "Spine" (-20) 0 3,
           .rot "Head" (-15) 0 (-5),
           .rot "R_UpperArm" (-20) 0 30,
           .rot "R_ForeArm" (-20) 0 0,
           .rot "L_UpperArm" (-20) 0 (-30),
           .rot "L_ForeArm" (-20) 0 0,
           .rot "L_UpperLeg" (-20) 0 0,
           .rot "R_UpperLeg" (-20) 0 0,
           .loc "Root" 0 (-5) 5 ]),
    (20, [ .rot "Spine" (-50) 0 5,
           .rot "Head" (-30) 0 (-10),
           .rot "R_UpperArm" (-40) 0 45,
           .rot "R_ForeArm" (-30) 0 0,
           .rot "L_UpperArm" (-40) 0 (-45),
           .rot "L_ForeArm" (-30) 0 0,
           .rot "L_UpperLeg" (-50) 0 0,
           .rot "R_UpperLeg" (-50) 0 0,
           .loc "Root" 0 (-20) 15 ]),
    (30, [ .rot "Spine" (-80) 0 5,
           .rot "Head" (-40) 0 (-15),
           .rot "R_UpperArm" (-30) 0 60,
           .rot "R_ForeArm" (-20) 0 0,
           .rot "L_UpperArm" (-30) 0 (-60),
           .rot "L_ForeArm" (-20) 0 0,
           .rot "L_UpperLeg" (-80) 0 0,
           .rot "R_UpperLeg" (-80) 0 0,
           .loc "Root" 0 (-35) 30 ]) ]

/-- The baked `Walk` action. -/
def walkAnim : AnimSt := bakeClip initAnimSt walkKeyframes

/-- The baked `Attack` action. -/
def attackAnim : AnimSt := bakeClip initAnimSt attackKeyframes

/-- The baked `Die` action. -/
def dieAnim : AnimSt := bakeClip initAnimSt dieKeyframes

/-- The rotation key recorded for bone `b` at frame `f`, if any. -/
def keyedRot (st : AnimSt) (b : String) (f : Nat) : Option V3 :=
  (st.keys.find? fun k =>
    k.bone == b && k.channel == Channel.rotationEuler && k.frame == f).map
    KeyEntry.value

/-- The location key recorded for bone `b` at frame `f`, if any. -/
def keyedLoc (st : AnimSt) (b : String) (f : Nat) : Option V3 :=
  (st.keys.find? fun k =>
    k.bone == b && k.channel == Channel.location && k.frame == f).map
    KeyEntry.value

/-- Does a keyframe's override list mention bone `b` in a
`set_bone_rot` call? -/
def mentionsRot (ovs : List PoseOv) (b : String) : Bool :=
  ovs.any fun ov => match ov with
    | .rot b2 _ _ _ => b2 == b
    | .loc _ _ _ _ => false

/-- Does a keyframe's override list mention bone `b` in a
`set_bone_loc` call? -/
def mentionsLoc (ovs : List PoseOv) (b : String) : Bool :=
  ovs.any fun ov => match ov with
    | .rot _ _ _ _ => false
    | .loc b2 _ _ _ => b2 == b

/-- The explicit override list the script authors at frame `f` of a
clip, if `f` is one of the clip's keyframes. -/
def ovsAt (kfs : List (Nat × List PoseOv)) (f : Nat) : Option (List PoseOv) :=
  (kfs.find? fun kf => kf.1 == f).map Prod.snd

/-- The rotation value a keyframe block explicitly sets for bone `b`
(the last `set_bone_rot` for `b` in the block, matching sequential
execution), if any. -/
def rotOvFor (ovs : List PoseOv) (b : String) : Option V3 :=
  ovs.foldl
    (fun acc ov => match ov with
      | .rot b2 x y z => if b2 == b then some ⟨x, y, z⟩ else acc
      | .loc _ _ _ _ => acc) none

/-- The rotation explicitly authored for bone `b` at frame `f` of a
clip (none when the frame is not keyed or the bone is not mentioned). -/
def rotOvAt (kfs : List (Nat × List PoseOv)) (f : Nat) (b : String) : Option V3 :=
  (ovsAt kfs f).bind fun ovs => rotOvFor ovs b

/-- Mirror instant of a `Walk` frame: half the 24-frame cycle away
(frame 7 ↦ 19, 19 ↦ 7, 1 ↦ 13, 25 ↦ 13 ≡ 1+12). -/
def mirrorFrame (f : Nat) : Nat :=
  if 13 ≤ f then f - 12 else f + 12

/-! ## Armature (`create_armature` / `add_bone`) -/

/-- Ground offset `Z_OFF = 0.11`, in hundredths. -/
def Z_OFF : Int := 11

/-- An edit bone as created by `add_bone`: name, head, tail (hundredths
of a unit), optional parent and the `use_connect` flag. -/
structure BoneSpec where
  name : String
  head : V3
  tail : V3
  parent : Option String
  connect : Bool
deriving DecidableEq, Repr

/-- Lookup `arm.edit_bones[name]`: first bone with that name, if any. -/
def findBone : List BoneSpec → String → Option BoneSpec
  | [], _ => none
  | b :: bs, p => if b.name = p then some b else findBone bs p

/-- The arguments of one `add_bone(name, head, tail, parent_name,
connect)` call. -/
structure AddBoneReq where
  name : String
  head : V3
  tail : V3
  parent : Option String
  connect : Bool
deriving DecidableEq, Repr

/-- Model of `add_bone`: creates the bone; when a parent name is given it is
looked up among the bones created so far (`arm.edit_bones[parent_name]`
raises if absent — modelled as `none`) and `use_connect` is set;
without a parent the flag keeps its default `False`. -/
def add_bone (bs : List BoneSpec) (r : AddBoneReq) : Option (List BoneSpec) :=
  match r.parent with
  | none => some (bs ++ [⟨r.name, r.head, r.tail, none, false⟩])
  | some p =>
    match findBone bs p with
    | none => none
    | some _ => some (bs ++ [⟨r.name, r.head, r.tail, some p, r.connect⟩])

/-- Run a sequence of `add_bone` calls starting from an empty armature
(the default bone is removed first in `create_armature`). -/
def buildArmature (reqs : List AddBoneReq) : Option (List BoneSpec) :=
  reqs.foldlM add_bone []

/-- The eleven `add_bone` calls of `create_armature`, in order, with the
script's exact coordinates (hundredths; `z = Z_OFF`). -/
def orcBoneReqs : List AddBoneReq :=
  [ ⟨"Root", ⟨0, 0, Z_OFF + 22⟩, ⟨0, 0, Z_OFF + 26⟩, none, false⟩,
    ⟨"Spine", ⟨0, 0, Z_OFF + 22⟩, ⟨0, 0, Z_OFF + 53⟩, some "Root", true⟩,
    ⟨"Head", ⟨0, 0, Z_OFF + 53⟩, ⟨0, 0, Z_OFF + 81⟩, some "Spine", true⟩,
    ⟨"L_UpperArm", ⟨-19, 0, Z_OFF + 50⟩, ⟨-28, 0, Z_OFF + 48⟩, some "Spine", false⟩,
    ⟨"L_ForeArm", ⟨-28, 0, Z_OFF + 48⟩, ⟨-30, 0, Z_OFF + 24⟩, some "L_UpperArm", true⟩,
    ⟨"R_UpperArm", ⟨19, 0, Z_OFF + 50⟩, ⟨28, 0, Z_OFF + 48⟩, some "Spine", false⟩,
    ⟨"R_ForeArm", ⟨28, 0, Z_OFF + 48⟩, ⟨30, 0, Z_OFF + 24⟩, some "R_UpperArm", true⟩,
    ⟨"L_UpperLeg", ⟨-12, 0, Z_OFF + 22⟩, ⟨-12, 0, Z_OFF + 5⟩, some "Root", false⟩,
    ⟨"L_LowerLeg", ⟨-12, 0, Z_OFF + 5⟩, ⟨-12, 0, Z_OFF - 8⟩, some "L_UpperLeg", true⟩,
    ⟨"R_UpperLeg", ⟨12, 0, Z_OFF + 22⟩, ⟨12, 0, Z_OFF + 5⟩, some "Root", false⟩,
    ⟨"R_LowerLeg", ⟨12, 0, Z_OFF + 5⟩, ⟨12, 0, Z_OFF - 8⟩, some "R_UpperLeg", true⟩ ]

/-- The bones of the orc armature as `create_armature` builds them. -/
def orcBones : List BoneSpec :=
  [ ⟨"Root", ⟨0, 0, Z_OFF + 22⟩, ⟨0, 0, Z_OFF + 26⟩, none, false⟩,
    ⟨"Spine", ⟨0, 0, Z_OFF + 22⟩, ⟨0, 0, Z_OFF + 53⟩, some "Root", true⟩,
    ⟨"Head", ⟨0, 0, Z_OFF + 53⟩, ⟨0, 0, Z_OFF + 81⟩, some "Spine", true⟩,
    ⟨"L_UpperArm", ⟨-19, 0, Z_OFF + 50⟩, ⟨-28, 0, Z_OFF + 48⟩, some "Spine", false⟩,
    ⟨"L_ForeArm", ⟨-28, 0, Z_OFF + 48⟩, ⟨-30, 0, Z_OFF + 24⟩, some "L_UpperArm", true⟩,
    ⟨"R_UpperArm", ⟨19, 0, Z_OFF + 50⟩, ⟨28, 0, Z_OFF + 48⟩, some "Spine", false⟩,
    ⟨"R_ForeArm", ⟨28, 0, Z_OFF + 48⟩, ⟨30, 0, Z_OFF + 24⟩, some "R_UpperArm", true⟩,
    ⟨"L_UpperLeg", ⟨-12, 0, Z_OFF + 22⟩, ⟨-12, 0, Z_OFF + 5⟩, some "Root", false⟩,
    ⟨"L_LowerLeg", ⟨-12, 0, Z_OFF + 5⟩, ⟨-12, 0, Z_OFF - 8⟩, some "L_UpperLeg", true⟩,
    ⟨"R_UpperLeg", ⟨12, 0, Z_OFF + 22⟩, ⟨12, 0, Z_OFF + 5⟩, some "Root", false⟩,
    ⟨"R_LowerLeg", ⟨12, 0, Z_OFF + 5⟩, ⟨12, 0, Z_OFF - 8⟩, some "R_UpperLeg", true⟩ ]

/-- The tail of a bone's parent, if the bone has one. -/
def parentTailOf (bs : List BoneSpec) (b : BoneSpec) : Option V3 :=
  b.parent.bind fun p => (findBone bs p).map BoneSpec.tail

/-- Follow `parent` links with explicit fuel, returning the parentless
root reached, `none` if the fuel runs out or a parent name is missing. -/
def rootOf (bs : List BoneSpec) : Nat → BoneSpec → Option BoneSpec
  | 0, _ => none
  | fuel + 1, b =>
    match b.parent with
    | none => some b
    | some p =>
      match findBone bs p with
      | none => none
      | some pb => rootOf bs fuel pb

/-! ## Rig binding (`parent_to_bone` / `rig_model`) -/

/-- The armature object handed to `parent_to_bone` (its `data.bones`). -/
structure ArmatureObj where
  bones : List BoneSpec
deriving DecidableEq, Repr

/-- The only binding failure: `armature.data.bones[bone_name]` raises
when the name is absent (the spec's `BoneNotFoundError`). -/
inductive BindError where
  | boneNotFound
deriving DecidableEq, Repr

/-- A successful bind: the object parented to exactly one bone. -/
structure BoundPart where
  part : String
  bone : String
deriving DecidableEq, Repr

/-- Model of `parent_to_bone(obj, armature, bone_name)`: look up the bone (raise
`BoneNotFoundError` when absent), make it active, parent the object to
it with `parent_set(type='BONE')`. -/
def parent_to_bone (obj : String) (arm : ArmatureObj) (boneName : String) :
    Except BindError BoundPart :=
  match findBone arm.bones boneName with
  | none => Except.error BindError.boneNotFound
  | some b => Except.ok ⟨obj, b.name⟩

/-- The `groups` dict built by `build_body_parts`:
bone name ↦ joined mesh object name, in creation order. -/
def orcGroups : List (String × String) :=
  [ ("Spine", "Grp_Spine"), ("Head", "Grp_Head"),
    ("L_UpperArm", "ArmLUpper"), ("L_ForeArm", "Grp_L_ForeArm"),
    ("R_UpperArm", "ArmRUpper"), ("R_ForeArm", "Grp_R_ForeArm"),
    ("L_UpperLeg", "LegLUpper"), ("L_LowerLeg", "Grp_L_LowerLeg"),
    ("R_UpperLeg", "LegRUpper"), ("R_LowerLeg", "Grp_R_LowerLeg") ]

/-- Model of `rig_model`: parent each mesh group to its corresponding bone. -/
def rig_model (arm : ArmatureObj) (groups : List (String × String)) :
    Except BindError (List BoundPart) :=
  groups.mapM fun g => parent_to_bone g.2 arm g.1

/-- The orc armature object. -/
def orcArmatureObj : ArmatureObj := ⟨orcBones⟩

/-! ## NLA track packaging (`main`) -/

/-- A named action: `bpy.data.actions.new(name)` plus its baked keys. -/
structure ActionData where
  name : String
  anim : AnimSt
deriving DecidableEq, Repr

/-- The action returned by `create_walk_cycle`. -/
def walkActionData : ActionData := ⟨"Walk", walkAnim⟩

/-- The action returned by `create_attack_anim`. -/
def attackActionData : ActionData := ⟨"Attack", attackAnim⟩

/-- The action returned by `create_die_anim`. -/
def dieActionData : ActionData := ⟨"Die", dieAnim⟩

/-- First keyed frame of the action (`action.frame_range[0]`). -/
def actionFrameStart (st : AnimSt) : Nat :=
  match st.keys.map KeyEntry.frame with
  | [] => 0
  | f :: fs => fs.foldl min f

/-- One NLA strip (`track.strips.new(name, start, action)`). -/
structure Strip where
  name : String
  start : Nat
  actionName : String
deriving DecidableEq, Repr

/-- One NLA track. -/
structure Track where
  name : String
  strips : List Strip
  mute : Bool
deriving DecidableEq, Repr

/-- The packaging loop of `main`: for each action a fresh track named
after it, a single strip wrapping the action at its first frame, and
`track.mute = True`. -/
def packageTracks (actions : List ActionData) : List Track :=
  actions.map fun a =>
    { name := a.name,
      strips := [⟨a.name, actionFrameStart a.anim, a.name⟩],
      mute := true }

/-- The tracks `main` creates for `[walk_action, attack_action,
die_action]`. -/
def orcTracks : List Track :=
  packageTracks [walkActionData, attackActionData, dieActionData]

/-! ## Scene lifecycle (`clear_scene` / `main`)

Blender datablocks are modelled with explicit integer ids (`uid`);
an object references its mesh/armature datablock by uid, a mesh
references its materials by uid, and a datablock's user count is the
number of referencing blocks plus one for `use_fake_user`.  Preview
light and camera data live outside the four collections `clear_scene`
purges (and outside the authored asset), so their objects carry
`dataUid = none`. -/

/-- A scene object (`bpy.context.scene.objects` member). -/
structure ObjB where
  name : String
  dataUid : Option Nat
deriving DecidableEq, Repr

/-- A mesh datablock (`bpy.data.meshes` member). -/
structure MeshB where
  uid : Nat
  name : String
  materialUids : List Nat
  fakeUser : Bool
deriving DecidableEq, Repr

/-- An armature datablock (`bpy.data.armatures` member). -/
structure ArmB where
  uid : Nat
  name : String
  bones : List BoneSpec
  fakeUser : Bool
deriving DecidableEq, Repr

/-- A material datablock (`bpy.data.materials` member). -/
structure MatB where
  uid : Nat
  name : String
  fakeUser : Bool
deriving DecidableEq, Repr

/-- An action datablock (`bpy.data.actions` member). -/
structure ActB where
  name : String
  fakeUser : Bool
deriving DecidableEq, Repr

/-- The authoring workspace state (the collections `clear_scene`
touches). -/
@[ext]
structure SceneState where
  objects : List ObjB
  meshes : List MeshB
  armatures : List ArmB
  materials : List MatB
  actions : List ActB
deriving DecidableEq, Repr

/-- One user contributed by `use_fake_user`. -/
def fakeCount (b : Bool) : Nat := if b then 1 else 0

/-- User count (`block.users`) of a mesh: referencing objects plus fake user. -/
def meshUsers (objects : List ObjB) (m : MeshB) : Nat :=
  (objects.filter fun o => o.dataUid == some m.uid).length + fakeCount m.fakeUser

/-- User count (`block.users`) of an armature: referencing objects plus fake user. -/
def armUsers (objects : List ObjB) (a : ArmB) : Nat :=
  (objects.filter fun o => o.dataUid == some a.uid).length + fakeCount a.fakeUser

/-- User count (`block.users`) of a material: referencing meshes plus fake user. -/
def matUsers (meshes : List MeshB) (mat : MatB) : Nat :=
  (meshes.filter fun me => me.materialUids.contains mat.uid).length +
    fakeCount mat.fakeUser

/-- Model of `clear_scene()`: delete every object, then remove zero-user meshes,
zero-user armatures, ALL actions (clearing `use_fake_user` first), and
zero-user materials, in the script's order — so mesh removal precedes
the material user check. -/
def clear_scene (s : SceneState) : SceneState :=
  let objects : List ObjB := []
  let meshes := s.meshes.filter fun m => meshUsers objects m != 0
  let armatures := s.armatures.filter fun a => armUsers objects a != 0
  let actions : List ActB := []
  let materials := s.materials.filter fun mat => matUsers meshes mat != 0
  ⟨objects, meshes, armatures, materials, actions⟩

/-- All uids a mesh mentions. -/
def meshUids (m : MeshB) : List Nat := m.uid :: m.materialUids

/-- All uids an object mentions. -/
def objUids (o : ObjB) : List Nat := o.dataUid.toList

/-- Every uid mentioned anywhere in the scene. -/
def sceneUids (s : SceneState) : List Nat :=
  s.objects.foldr (fun o l => objUids o ++ l) [] ++
    s.meshes.foldr (fun m l => meshUids m ++ l) [] ++
    s.armatures.map ArmB.uid ++ s.materials.map MatB.uid

/-- Maximum of a list of naturals. -/
def listMax (l : List Nat) : Nat := l.foldr max 0

/-- A uid strictly above everything mentioned in the scene: Blender
never recycles a live pointer, so freshly created datablocks are
distinct from every surviving one. -/
def nextUid (s : SceneState) : Nat := listMax (sceneUids s) + 1

/-- The eight materials `create_materials` makes (uids `b..b+7`). -/
def genMaterials (b : Nat) : List MatB :=
  [ ⟨b, "OrcSkin", false⟩, ⟨b + 1, "OrcSkinDark", false⟩,
    ⟨b + 2, "OrcMouth", false⟩, ⟨b + 3, "OrcEyes", false⟩,
    ⟨b + 4, "OrcLeather", false⟩, ⟨b + 5, "OrcMetal", false⟩,
    ⟨b + 6, "OrcWood", false⟩, ⟨b + 7, "OrcTeeth", false⟩ ]

/-- The ten joined body-part meshes of `build_body_parts` (uids
`b+8..b+17`) with the materials their parts use (`b+k` = the k-th
generated material). -/
def genMeshes (b : Nat) : List MeshB :=
  [ ⟨b + 8, "Grp_Spine", [b, b + 4], false⟩,
    ⟨b + 9, "Grp_Head", [b, b + 1, b + 3, b + 2, b + 7], false⟩,
    ⟨b + 10, "ArmLUpper", [b], false⟩,
    ⟨b + 11, "Grp_L_ForeArm", [b, b + 1], false⟩,
    ⟨b + 12, "ArmRUpper", [b], false⟩,
    ⟨b + 13, "Grp_R_ForeArm", [b, b + 1, b + 6, b + 5], false⟩,
    ⟨b + 14, "LegLUpper", [b], false⟩,
    ⟨b + 15, "Grp_L_LowerLeg", [b + 4], false⟩,
    ⟨b + 16, "LegRUpper", [b], false⟩,
    ⟨b + 17, "Grp_R_LowerLeg", [b + 4], false⟩ ]

/-- The `OrcRig` armature datablock (uid `b+18`). -/
def genArmature (b : Nat) : ArmB := ⟨b + 18, "OrcRig", orcBones, false⟩

/-- The objects `main` leaves in the scene: the ten rigged groups, the
armature object, and the preview lights/camera (whose data lives
outside the purged collections). -/
def genObjects (b : Nat) : List ObjB :=
  [ ⟨"Grp_Spine", some (b + 8)⟩, ⟨"Grp_Head", some (b + 9)⟩,
    ⟨"ArmLUpper", some (b + 10)⟩, ⟨"Grp_L_ForeArm", some (b + 11)⟩,
    ⟨"ArmRUpper", some (b + 12)⟩, ⟨"Grp_R_ForeArm", some (b + 13)⟩,
    ⟨"LegLUpper", some (b + 14)⟩, ⟨"Grp_L_LowerLeg", some (b + 15)⟩,
    ⟨"LegRUpper", some (b + 16)⟩, ⟨"Grp_R_LowerLeg", some (b + 17)⟩,
    ⟨"OrcArmature", some (b + 18)⟩,
    ⟨"KeyLight", none⟩, ⟨"FillLight", none⟩, ⟨"OrcCamera", none⟩ ]

/-- The three clips; each `create_*` sets `use_fake_user = True`. -/
def genActions : List ActB :=
  [⟨"Walk", true⟩, ⟨"Attack", true⟩, ⟨"Die", true⟩]

/-- Everything `main` authors after `clear_scene`, appended to whatever
survived the purge, with fresh uids. -/
def addGenerated (c : SceneState) : SceneState :=
  let b := nextUid c
  { objects := c.objects ++ genObjects b,
    meshes := c.meshes ++ genMeshes b,
    armatures := c.armatures ++ [genArmature b],
    materials := c.materials ++ genMaterials b,
    actions := c.actions ++ genActions }

/-- Model of `main()` at scene-lifecycle granularity: purge, then regenerate. -/
def mainModel (s : SceneState) : SceneState := addGenerated (clear_scene s)

/-- Total number of bones across the scene's armatures. -/
def boneCount (s : SceneState) : Nat :=
  (s.armatures.map fun a => a.bones.length).sum

/-- Number of body-part meshes in the scene. -/
def partCount (s : SceneState) : Nat := s.meshes.length

/-- The material names present in the scene, in creation order. -/
def materialNames (s : SceneState) : List String := s.materials.map MatB.name

/-- The action names present in the scene, in creation order. -/
def actionNames (s : SceneState) : List String := s.actions.map ActB.name

/-- The object names present in the scene, in creation order. -/
def objectNames (s : SceneState) : List String := s.objects.map ObjB.name

/-- Structural invariant of bone lists built by `add_bone`: every
bone's parent name occurs at a strictly earlier creation index. -/
def parentEarlier (bs : List BoneSpec) : Prop :=
  ∀ i, ∀ hi : i < bs.length, ∀ p, (bs.get ⟨i, hi⟩).parent = some p →
    ∃ j, ∃ hj : j < bs.length, j < i ∧ (bs.get ⟨j, hj⟩).name = p

/-- What holds of a scene right after `clear_scene`: no objects, no
actions, only fake-user meshes/armatures, and only materials that still
have users. -/
def postClear (c : SceneState) : Prop :=
  c.objects = [] ∧ c.actions = [] ∧
    (∀ m ∈ c.meshes, m.fakeUser = true) ∧
    (∀ a ∈ c.armatures, a.fakeUser = true) ∧
    (∀ mat ∈ c.materials, matUsers c.meshes mat ≠ 0)

/-- A small concrete prior-run scene used to instantiate the
`clear_scene` theorem: one object using mesh 1, one orphan mesh, one
fake-user mesh, an orphan armature, a material kept alive by the
fake-user mesh, an orphan material, and a fake-user action. -/
def demoScene : SceneState :=
  { objects := [⟨"Cube", some 1⟩],
    meshes := [⟨1, "CubeMesh", [5], false⟩, ⟨2, "Orphan", [6], false⟩,
               ⟨3, "Kept", [5], true⟩],
    armatures := [⟨4, "OldRig", [], false⟩],
    materials := [⟨5, "OldSkin", false⟩, ⟨6, "OldWood", false⟩],
    actions := [⟨"OldWalk", true⟩] }

/-! ## C1 — reset-then-override baking -/

/-- C1.  Reset-then-override baking: in every clip the generator
authors, every keyframe records the full pose after `reset_pose`
followed by only that keyframe's explicit overrides; hence any bone not
mentioned at a keyframe is keyed at rest rotation `(0,0,0)` and rest
location `(0,0,0)` there.  In particular the Root location set at
Attack frames 11 and 14 is back at rest at frame 20. -/
theorem reset_then_override_baking :
    (∀ kfs ∈ [walkKeyframes, attackKeyframes, dieKeyframes],
      ∀ kf ∈ kfs, ∀ b ∈ orcBoneNames,
        (mentionsRot kf.2 b = false →
          keyedRot (bakeClip initAnimSt kfs) b kf.1 = some V3.zero) ∧
        (mentionsLoc kf.2 b = false →
          keyedLoc (bakeClip initAnimSt kfs) b kf.1 = some V3.zero)) ∧
    keyedLoc attackAnim "Root" 11 = some ⟨0, -2, -3⟩ ∧
    keyedLoc attackAnim "Root" 14 = some ⟨0, -2, -2⟩ ∧
    keyedLoc attackAnim "Root" 20 = some V3.zero ∧
    keyedRot attackAnim "Root" 20 = some V3.zero := by
  decide

/-- Witness for C1 at the Attack clip, keyframe 20, bone Root. -/
theorem reset_then_override_baking_witness :
    attackKeyframes ∈ [walkKeyframes, attackKeyframes, dieKeyframes] ∧
    (20, ([] : List PoseOv)) ∈ attackKeyframes ∧
    "Root" ∈ orcBoneNames ∧
    mentionsLoc [] "Root" = false ∧
    keyedLoc (bakeClip initAnimSt attackKeyframes) "Root" 20 = some V3.zero :=
  ⟨by decide, by decide, by decide, by decide,
    (reset_then_override_baking.1 attackKeyframes (by decide)
      (20, []) (by decide) "Root" (by decide)).2 (by decide)⟩

/-! ## C2 — Walk loop closure -/

/-- C2.  Loop closure of `Walk`: the explicit override lists authored
at the first keyframe (frame 1) and the last keyframe (frame 25) are
identical (both empty, i.e. a full-rest pose keyed on every bone), and
the baked keys of every bone agree between the two frames — all at
rest. -/
theorem walk_loop_closure :
    ovsAt walkKeyframes 1 = some [] ∧
    ovsAt walkKeyframes 25 = some [] ∧
    (orcBoneNames.map fun b => keyedRot walkAnim b 1) =
      (orcBoneNames.map fun b => keyedRot walkAnim b 25) ∧
    (orcBoneNames.map fun b => keyedLoc walkAnim b 1) =
      (orcBoneNames.map fun b => keyedLoc walkAnim b 25) ∧
    (orcBoneNames.all fun b => keyedRot walkAnim b 1 == some V3.zero) = true ∧
    (orcBoneNames.all fun b => keyedLoc walkAnim b 1 == some V3.zero) = true := by
  decide

/-! ## C3 — Walk mirror consistency -/

/-- C3, counterexample.  The claim says the mirrored keyframe half a
cycle later (frame 7 ↦ frame 19) sets `R_UpperLeg` to the negated
X rotation `(-rx,0,0)`.  In the script frame 7 sets `L_UpperLeg` to
`(30,0,0)` while frame 19 sets `R_UpperLeg` to `(30,0,0)` — the same
value, not the negation. -/
theorem walk_mirror_counterexample :
    rotOvAt walkKeyframes 7 "L_UpperLeg" = some ⟨30, 0, 0⟩ ∧
    mirrorFrame 7 = 19 ∧
    rotOvAt walkKeyframes 19 "R_UpperLeg" = some ⟨30, 0, 0⟩ ∧
    rotOvAt walkKeyframes 19 "R_UpperLeg" ≠ some ⟨-30, 0, 0⟩ := by
  decide

/-- C3, amended.  For every `Walk` keyframe that sets `L_UpperLeg` to
`(rx,0,0)`, the mirrored keyframe half a cycle later sets `R_UpperLeg`
to the same `(rx,0,0)` — the sides swap roles; the sign flip `(-rx,0,0)`
relates the two legs within one and the same keyframe instead. -/
theorem walk_mirror_amended :
    ∀ f ∈ walkKeyframes.map Prod.fst, ∀ rx : Int,
      rotOvAt walkKeyframes f "L_UpperLeg" = some ⟨rx, 0, 0⟩ →
      rotOvAt walkKeyframes (mirrorFrame f) "R_UpperLeg" = some ⟨rx, 0, 0⟩ := by
  intro f hf rx h
  have hf' : f = 1 ∨ f = 7 ∨ f = 13 ∨ f = 19 ∨ f = 25 := by
    simpa [walkKeyframes] using hf
  rcases hf' with rfl | rfl | rfl | rfl | rfl
  · rw [(by decide : rotOvAt walkKeyframes 1 "L_UpperLeg" = none)] at h
    exact Option.noConfusion h
  · rw [(by decide : rotOvAt walkKeyframes 7 "L_UpperLeg" = some ⟨30, 0, 0⟩)] at h
    injection h with h'
    injection h' with hx hy hz
    rw [← hx]
    decide
  · rw [(by decide : rotOvAt walkKeyframes 13 "L_UpperLeg" = none)] at h
    exact Option.noConfusion h
  · rw [(by decide : rotOvAt walkKeyframes 19 "L_UpperLeg" = some ⟨-30, 0, 0⟩)] at h
    injection h with h'
    injection h' with hx hy hz
    rw [← hx]
    decide
  · rw [(by decide : rotOvAt walkKeyframes 25 "L_UpperLeg" = none)] at h
    exact Option.noConfusion h

/-- Witness for the amended C3 at frame 7, `rx = 30`. -/
theorem walk_mirror_amended_witness :
    7 ∈ walkKeyframes.map Prod.fst ∧
    rotOvAt walkKeyframes 7 "L_UpperLeg" = some ⟨30, 0, 0⟩ ∧
    rotOvAt walkKeyframes (mirrorFrame 7) "R_UpperLeg" = some ⟨30, 0, 0⟩ :=
  ⟨by decide, by decide, walk_mirror_amended 7 (by decide) 30 (by decide)⟩

/-! ## C4 — connected-bone invariant -/

/-- C4, counterexample.  `Spine` is created with `connect=True`, but the
head supplied to `add_bone` is `(0,0,z+0.22)` while its parent `Root`'s
tail is `(0,0,z+0.26)` — they differ by `0.04`, so the supplied head
does not equal the parent tail. -/
theorem connected_bone_counterexample :
    (findBone orcBones "Spine").map BoneSpec.connect = some true ∧
    (findBone orcBones "Spine").map BoneSpec.head = some ⟨0, 0, Z_OFF + 22⟩ ∧
    ((findBone orcBones "Spine").bind fun b => parentTailOf orcBones b) =
      some ⟨0, 0, Z_OFF + 26⟩ ∧
    (⟨0, 0, Z_OFF + 26⟩ : V3) ≠ ⟨0, 0, Z_OFF + 22⟩ := by
  decide

/-- C4, amended.  Every connected bone of the orc armature except
`Spine` has its supplied head exactly equal to its parent's tail;
`Spine` alone violates the convention (off by `0.04` in z). -/
theorem connected_bone_amended :
    ∀ b ∈ orcBones, b.connect = true → b.name ≠ "Spine" →
      parentTailOf orcBones b = some b.head := by
  intro b hb
  fin_cases hb <;> decide

/-- Witness for the amended C4 at the `Head` bone. -/
theorem connected_bone_amended_witness :
    (⟨"Head", ⟨0, 0, Z_OFF + 53⟩, ⟨0, 0, Z_OFF + 81⟩, some "Spine", true⟩ : BoneSpec) ∈
        orcBones ∧
    parentTailOf orcBones
        ⟨"Head", ⟨0, 0, Z_OFF + 53⟩, ⟨0, 0, Z_OFF + 81⟩, some "Spine", true⟩ =
      some ⟨0, 0, Z_OFF + 53⟩ :=
  ⟨by decide,
    connected_bone_amended _ (by decide) (by decide) (by decide)⟩

/-! ## C7 — NLA track packaging -/

/-- C7.  Track packaging: `main` creates exactly one NLA track per
authored clip (Walk, Attack, Die), each track named after its clip and
wrapping exactly that one clip as its single strip, every track muted,
and hence at most one track left active. -/
theorem track_packaging :
    orcTracks.map Track.name = ["Walk", "Attack", "Die"] ∧
    (orcTracks.map fun t => t.strips.map Strip.actionName) =
      [["Walk"], ["Attack"], ["Die"]] ∧
    (orcTracks.map fun t => t.strips.length) = [1, 1, 1] ∧
    orcTracks.all Track.mute = true ∧
    (orcTracks.filter fun t => !t.mute).length ≤ 1 := by
  decide

/-! ## C10 — full-pose keying -/

/-- C10.  Full-pose keying: at every authored keyframe of every clip,
a rotation key and a location key are inserted for every bone of the
skeleton, not only for the bones overridden there. -/
theorem full_pose_keying :
    ∀ kfs ∈ [walkKeyframes, attackKeyframes, dieKeyframes],
      ∀ kf ∈ kfs, ∀ b ∈ orcBoneNames,
        (keyedRot (bakeClip initAnimSt kfs) b kf.1).isSome = true ∧
        (keyedLoc (bakeClip initAnimSt kfs) b kf.1).isSome = true := by
  decide

/-- Witness for C10 at the Walk clip, keyframe 1, bone `L_LowerLeg`. -/
theorem full_pose_keying_witness :
    walkKeyframes ∈ [walkKeyframes, attackKeyframes, dieKeyframes] ∧
    (1, ([] : List PoseOv)) ∈ walkKeyframes ∧
    "L_LowerLeg" ∈ orcBoneNames ∧
    (keyedRot (bakeClip initAnimSt walkKeyframes) "L_LowerLeg" 1).isSome = true :=
  ⟨by decide, by decide, by decide,
    (full_pose_keying walkKeyframes (by decide) (1, []) (by decide)
      "L_LowerLeg" (by decide)).1⟩

/-! ## C6 — binding failure (`parent_to_bone`) -/

/-- Lookup misses exactly the names absent from the bone list. -/
theorem findBone_eq_none_iff (bs : List BoneSpec) (n : String) :
    findBone bs n = none ↔ n ∉ bs.map BoneSpec.name := by
  induction bs with
  | nil => simp [findBone]
  | cons b bs ih =>
    by_cases h : b.name = n
    · simp [findBone, h]
    · simp [findBone, h, ih, Ne.symm h]

/-- A found bone carries exactly the requested name. -/
theorem findBone_name (bs : List BoneSpec) (n : String) (b : BoneSpec)
    (h : findBone bs n = some b) : b.name = n := by
  induction bs with
  | nil => exact Option.noConfusion h
  | cons a bs ih =>
    rw [findBone] at h
    split at h
    · cases h
      assumption
    · exact ih h

/-- C6.  Binding: for every armature and every requested bone name,
`parent_to_bone` fails with `BoneNotFoundError` when the name is absent
from the armature's bones, and otherwise succeeds, attaching the part
to exactly the requested bone. -/
theorem parent_to_bone_spec :
    ∀ (arm : ArmatureObj) (obj boneName : String),
      (boneName ∉ arm.bones.map BoneSpec.name →
        parent_to_bone obj arm boneName = Except.error BindError.boneNotFound) ∧
      (boneName ∈ arm.bones.map BoneSpec.name →
        parent_to_bone obj arm boneName = Except.ok ⟨obj, boneName⟩) := by
  intro arm obj n
  constructor
  · intro hn
    unfold parent_to_bone
    rw [(findBone_eq_none_iff arm.bones n).mpr hn]
  · intro hn
    unfold parent_to_bone
    rcases hfb : findBone arm.bones n with _ | b
    · exact absurd hn ((findBone_eq_none_iff arm.bones n).mp hfb)
    · simp [findBone_name arm.bones n b hfb]

/-- Witness for C6 on the orc armature: binding to the absent name
`Tail` fails with `BoneNotFoundError`; binding to `Spine` succeeds and
attaches to exactly `Spine`. -/
theorem parent_to_bone_spec_witness :
    ("Tail" ∉ orcArmatureObj.bones.map BoneSpec.name ∧
      parent_to_bone "Grp_Spine" orcArmatureObj "Tail" =
        Except.error BindError.boneNotFound) ∧
    ("Spine" ∈ orcArmatureObj.bones.map BoneSpec.name ∧
      parent_to_bone "Grp_Spine" orcArmatureObj "Spine" =
        Except.ok ⟨"Grp_Spine", "Spine"⟩) :=
  ⟨⟨by decide,
      (parent_to_bone_spec orcArmatureObj "Grp_Spine" "Tail").1 (by decide)⟩,
    ⟨by decide,
      (parent_to_bone_spec orcArmatureObj "Grp_Spine" "Spine").2 (by decide)⟩⟩

/-! ## C8 — reset purge semantics (`clear_scene`) -/

/-- C8.  After `clear_scene`: no scene objects remain; every action is
removed unconditionally (fake-user clips included); a mesh or armature
survives exactly when it still has users once all objects are deleted;
a material survives exactly when it still has users once the zero-user
meshes are removed. -/
theorem clear_scene_purge :
    ∀ s : SceneState,
      (clear_scene s).objects = [] ∧
      (clear_scene s).actions = [] ∧
      (∀ m ∈ s.meshes,
        (m ∈ (clear_scene s).meshes ↔ meshUsers [] m ≠ 0)) ∧
      (∀ a ∈ s.armatures,
        (a ∈ (clear_scene s).armatures ↔ armUsers [] a ≠ 0)) ∧
      (∀ mat ∈ s.materials,
        (mat ∈ (clear_scene s).materials ↔
          matUsers (clear_scene s).meshes mat ≠ 0)) := by
  intro s
  refine ⟨rfl, rfl, ?_, ?_, ?_⟩
  · intro m hm
    simp [clear_scene, List.mem_filter, hm]
  · intro a ha
    simp [clear_scene, List.mem_filter, ha]
  · intro mat hmat
    simp [clear_scene, List.mem_filter, hmat]

/-- Witness for C8 on `demoScene`: the fake-user action is purged, the
orphan mesh (uid 2) is removed, the fake-user mesh (uid 3) survives,
and the material kept alive by the surviving mesh (uid 5) survives. -/
theorem clear_scene_purge_witness :
    (clear_scene demoScene).actions = [] ∧
    ((⟨2, "Orphan", [6], false⟩ : MeshB) ∈ demoScene.meshes ∧
      ¬(⟨2, "Orphan", [6], false⟩ : MeshB) ∈ (clear_scene demoScene).meshes) ∧
    ((⟨3, "Kept", [5], true⟩ : MeshB) ∈ demoScene.meshes ∧
      (⟨3, "Kept", [5], true⟩ : MeshB) ∈ (clear_scene demoScene).meshes) ∧
    ((⟨5, "OldSkin", false⟩ : MatB) ∈ demoScene.materials ∧
      (⟨5, "OldSkin", false⟩ : MatB) ∈ (clear_scene demoScene).materials) :=
  ⟨(clear_scene_purge demoScene).2.1,
    ⟨by decide,
      fun hmem =>
        absurd (((clear_scene_purge demoScene).2.2.1 _ (by decide)).mp hmem)
          (by decide)⟩,
    ⟨by decide,
      ((clear_scene_purge demoScene).2.2.1 _ (by decide)).mpr (by decide)⟩,
    ⟨by decide,
      ((clear_scene_purge demoScene).2.2.2.2 _ (by decide)).mpr (by decide)⟩⟩

/-! ## C5 — skeleton tree invariant -/

/-- The empty bone list vacuously satisfies the invariant. -/
theorem parentEarlier_nil : parentEarlier [] := by
  intro i hi
  exact absurd hi (Nat.not_lt_zero i)

/-- If some index holds a bone named `p`, `findBone` succeeds and
returns the bone at the first such index, which is no later. -/
theorem findBone_first (bs : List BoneSpec) (p : String) :
    ∀ j, ∀ hj : j < bs.length, (bs.get ⟨j, hj⟩).name = p →
      ∃ j0, ∃ h0 : j0 < bs.length, j0 ≤ j ∧
        findBone bs p = some (bs.get ⟨j0, h0⟩) := by
  induction bs with
  | nil =>
    intro j hj _
    exact absurd hj (Nat.not_lt_zero j)
  | cons a bs ih =>
    intro j hj hname
    by_cases ha : a.name = p
    · refine ⟨0, Nat.succ_pos _, Nat.zero_le _, ?_⟩
      simp [findBone, ha]
    · cases j with
      | zero => exact absurd hname ha
      | succ j' =>
        obtain ⟨j0, h0, hle, hfb⟩ := ih j' (Nat.lt_of_succ_lt_succ hj) hname
        refine ⟨j0 + 1, Nat.succ_lt_succ h0, Nat.succ_le_succ hle, ?_⟩
        simp only [findBone, if_neg ha]
        exact hfb

/-- A successful lookup pinpoints an index holding the name. -/
theorem findBone_index (bs : List BoneSpec) (p : String) (b : BoneSpec)
    (h : findBone bs p = some b) :
    ∃ j, ∃ hj : j < bs.length, (bs.get ⟨j, hj⟩).name = p := by
  induction bs with
  | nil => exact Option.noConfusion h
  | cons a bs ih =>
    rw [findBone] at h
    split at h
    · next ha => exact ⟨0, Nat.succ_pos _, ha⟩
    · next ha =>
      obtain ⟨j, hj, hn⟩ := ih h
      exact ⟨j + 1, Nat.succ_lt_succ hj, hn⟩

/-- Chasing parents succeeds with any larger fuel as well. -/
theorem rootOf_mono (bs : List BoneSpec) :
    ∀ f, ∀ b r, rootOf bs f b = some r → ∀ f', f ≤ f' →
      rootOf bs f' b = some r := by
  intro f
  induction f with
  | zero => intro b r h; exact Option.noConfusion h
  | succ f ih =>
    intro b r h f' hle
    obtain ⟨f'', rfl⟩ : ∃ k, f' = k + 1 := ⟨f' - 1, by omega⟩
    rw [rootOf] at h ⊢
    cases hpar : b.parent with
    | none =>
      simp only [hpar] at h ⊢
      exact h
    | some p =>
      simp only [hpar] at h ⊢
      cases hfb : findBone bs p with
      | none =>
        simp only [hfb] at h
        exact Option.noConfusion h
      | some pb =>
        simp only [hfb] at h ⊢
        exact ih pb r h f'' (by omega)

/-- Appending a bone whose parent (if any) already occurs in the list
preserves the invariant. -/
theorem parentEarlier_append (bs : List BoneSpec) (nb : BoneSpec)
    (hwf : parentEarlier bs)
    (hnb : ∀ q, nb.parent = some q →
      ∃ j, ∃ hj : j < bs.length, (bs.get ⟨j, hj⟩).name = q) :
    parentEarlier (bs ++ [nb]) := by
  intro i hi q hq
  by_cases hib : i < bs.length
  · rw [List.get_append i hib] at hq
    obtain ⟨j, hj, hji, hn⟩ := hwf i hib q hq
    have hj' : j < (bs ++ [nb]).length := by simp; omega
    refine ⟨j, hj', hji, ?_⟩
    rw [List.get_append j hj]
    exact hn
  · have hieq : i = bs.length := by
      simp only [List.length_append, List.length_singleton] at hi
      omega
    subst hieq
    have hgi : (bs ++ [nb]).get ⟨bs.length, hi⟩ = nb :=
      List.getElem_concat_length bs nb bs.length rfl hi
    rw [hgi] at hq
    obtain ⟨j, hj, hn⟩ := hnb q hq
    have hj' : j < (bs ++ [nb]).length := by simp; omega
    refine ⟨j, hj', hj, ?_⟩
    rw [List.get_append j hj]
    exact hn

/-- One `add_bone` step preserves the invariant: the call only ever
attaches a parent name it has just looked up among the existing bones. -/
theorem add_bone_parentEarlier (bs : List BoneSpec) (r : AddBoneReq)
    (bs' : List BoneSpec) (hwf : parentEarlier bs)
    (h : add_bone bs r = some bs') : parentEarlier bs' := by
  unfold add_bone at h
  cases hp : r.parent with
  | none =>
    simp only [hp] at h
    injection h with h'
    subst h'
    apply parentEarlier_append bs _ hwf
    intro q hq
    exact Option.noConfusion hq
  | some p =>
    simp only [hp] at h
    cases hfb : findBone bs p with
    | none =>
      simp only [hfb] at h
      exact Option.noConfusion h
    | some pb =>
      simp only [hfb] at h
      injection h with h'
      subst h'
      apply parentEarlier_append bs _ hwf
      intro q hq
      injection hq with hq'
      subst hq'
      exact findBone_index bs p pb hfb

/-- Folding `add_bone` over any request list preserves the invariant. -/
theorem foldlM_add_bone_parentEarlier (reqs : List AddBoneReq) :
    ∀ acc bs, parentEarlier acc →
      List.foldlM add_bone acc reqs = some bs → parentEarlier bs := by
  induction reqs with
  | nil =>
    intro acc bs h hb
    simp [List.foldlM] at hb
    exact hb ▸ h
  | cons r reqs ih =>
    intro acc bs h hb
    rw [List.foldlM] at hb
    cases hstep : add_bone acc r with
    | none => rw [hstep] at hb; exact Option.noConfusion hb
    | some acc' =>
      rw [hstep] at hb
      simp at hb
      exact ih acc' bs (add_bone_parentEarlier acc r acc' h hstep) hb

/-- Under the invariant, following `parent` from the bone at index `i`
reaches a parentless root within `i + 1` steps. -/
theorem rootOf_terminates (bs : List BoneSpec) (hwf : parentEarlier bs) :
    ∀ i, ∀ hi : i < bs.length,
      ∃ r, rootOf bs (i + 1) (bs.get ⟨i, hi⟩) = some r ∧ r.parent = none := by
  intro i
  induction i using Nat.strong_induction_on with
  | _ i ih =>
    intro hi
    cases hpar : (bs.get ⟨i, hi⟩).parent with
    | none =>
      refine ⟨bs.get ⟨i, hi⟩, ?_, hpar⟩
      rw [rootOf, hpar]
    | some p =>
      obtain ⟨j, hj, hlt, hname⟩ := hwf i hi p hpar
      obtain ⟨j0, h0, hle0, hfb⟩ := findBone_first bs p j hj hname
      obtain ⟨r, hr, hroot⟩ := ih j0 (Nat.lt_of_le_of_lt hle0 hlt) h0
      refine ⟨r, ?_, hroot⟩
      rw [rootOf]
      simp only [hpar, hfb]
      exact rootOf_mono bs (j0 + 1) _ r hr i (by omega)

/-- C5.  Skeleton tree invariant: for any sequence of `add_bone` calls
that builds successfully (each call may only name an already-existing
bone as parent — otherwise the build fails), every bone of the result
reaches a parentless root by following `parent`, within a number of
steps bounded by the number of bones; in particular the parent relation
has no cycles. -/
theorem skeleton_tree_invariant :
    ∀ (reqs : List AddBoneReq) (bs : List BoneSpec),
      buildArmature reqs = some bs →
      ∀ i, ∀ hi : i < bs.length,
        ∃ r, rootOf bs bs.length (bs.get ⟨i, hi⟩) = some r ∧
          r.parent = none := by
  intro reqs bs hb i hi
  have hwf : parentEarlier bs :=
    foldlM_add_bone_parentEarlier reqs [] bs parentEarlier_nil hb
  obtain ⟨r, hr, hroot⟩ := rootOf_terminates bs hwf i hi
  exact ⟨r, rootOf_mono bs (i + 1) _ r hr bs.length (by omega), hroot⟩

/-- Witness for C5: the orc build succeeds, and from its last bone
(`R_LowerLeg`, index 10) the parent chain reaches the parentless
`Root`. -/
theorem skeleton_tree_invariant_witness :
    buildArmature orcBoneReqs = some orcBones ∧
    ∃ r, rootOf orcBones orcBones.length
        (orcBones.get ⟨10, by decide⟩) = some r ∧ r.parent = none :=
  ⟨by decide,
    skeleton_tree_invariant orcBoneReqs orcBones (by decide) 10 (by decide)⟩

/-! ## C9 — regeneration idempotence -/

/-- Every member of a list of naturals is bounded by its maximum. -/
theorem le_listMax (l : List Nat) (u : Nat) (h : u ∈ l) : u ≤ listMax l := by
  induction l with
  | nil => cases h
  | cons a l ih =>
    rcases List.mem_cons.mp h with rfl | h'
    · exact Nat.le_max_left u (listMax l)
    · exact le_trans (ih h') (Nat.le_max_right a (listMax l))

/-- A uid mentioned by a member mesh is collected by the fold in
`sceneUids`. -/
theorem mem_foldr_meshUids (ms : List MeshB) (m : MeshB) (u : Nat)
    (hm : m ∈ ms) (hu : u ∈ meshUids m) :
    u ∈ ms.foldr (fun m l => meshUids m ++ l) [] := by
  induction ms with
  | nil => cases hm
  | cons a ms ih =>
    rcases List.mem_cons.mp hm with rfl | h'
    · exact List.mem_append_left _ hu
    · exact List.mem_append_right _ (ih h')

/-- Any material uid referenced by a mesh of the scene is strictly
below `nextUid`: freshly created datablocks are unreferenced. -/
theorem mesh_ref_lt_nextUid (s : SceneState) (m : MeshB) (u : Nat)
    (hm : m ∈ s.meshes) (hu : u ∈ m.materialUids) : u < nextUid s := by
  have h0 : u ∈ meshUids m := List.mem_cons_of_mem _ hu
  have h1 : u ∈ sceneUids s := by
    unfold sceneUids
    simp only [List.mem_append]
    exact Or.inl (Or.inl (Or.inr (mem_foldr_meshUids s.meshes m u hm h0)))
  have h2 := le_listMax (sceneUids s) u h1
  unfold nextUid
  omega

/-- Every scene satisfies `postClear` right after `clear_scene`. -/
theorem clear_scene_postClear (s : SceneState) : postClear (clear_scene s) := by
  refine ⟨rfl, rfl, ?_, ?_, ?_⟩
  · intro m hm
    have h2 := (List.mem_filter.mp hm).2
    by_contra hf
    rw [Bool.not_eq_true] at hf
    simp [meshUsers, fakeCount, hf] at h2
  · intro a ha
    have h2 := (List.mem_filter.mp ha).2
    by_contra hf
    rw [Bool.not_eq_true] at hf
    simp [armUsers, fakeCount, hf] at h2
  · intro mat hmat
    exact bne_iff_ne.mp (List.mem_filter.mp hmat).2

/-- Clearing right after a full regeneration retires exactly the
generated state: objects and actions go (the clips despite their fake
user), the generated meshes, armature and materials are orphaned and
purged, and the pre-existing survivors are untouched. -/
theorem clear_addGenerated (c : SceneState) (hc : postClear c) :
    clear_scene (addGenerated c) = c := by
  obtain ⟨hobj, hact, hmesh, harm, hmat⟩ := hc
  have hmeshesEq :
      (c.meshes ++ genMeshes (nextUid c)).filter
          (fun m => meshUsers [] m != 0) = c.meshes := by
    rw [List.filter_append]
    have h1 : c.meshes.filter (fun m => meshUsers [] m != 0) = c.meshes := by
      apply List.filter_eq_self.mpr
      intro m hm
      simp [meshUsers, fakeCount, hmesh m hm]
    have h2 : (genMeshes (nextUid c)).filter
        (fun m => meshUsers [] m != 0) = [] := by
      apply List.filter_eq_nil.mpr
      intro m hm
      fin_cases hm <;> simp [meshUsers, fakeCount]
    rw [h1, h2, List.append_nil]
  have harmsEq :
      (c.armatures ++ [genArmature (nextUid c)]).filter
          (fun a => armUsers [] a != 0) = c.armatures := by
    rw [List.filter_append]
    have h1 : c.armatures.filter (fun a => armUsers [] a != 0) = c.armatures := by
      apply List.filter_eq_self.mpr
      intro a ha
      simp [armUsers, fakeCount, harm a ha]
    have h2 : ([genArmature (nextUid c)]).filter
        (fun a => armUsers [] a != 0) = [] := by
      simp [genArmature, armUsers, fakeCount]
    rw [h1, h2, List.append_nil]
  have hfresh : ∀ u, nextUid c ≤ u → ∀ nm,
      matUsers c.meshes ⟨u, nm, false⟩ = 0 := by
    intro u hu nm
    unfold matUsers
    have hnil : c.meshes.filter (fun me => me.materialUids.contains u) = [] := by
      apply List.filter_eq_nil.mpr
      intro me hme
      intro hcon
      have hmem : u ∈ me.materialUids := List.elem_iff.mp hcon
      have := mesh_ref_lt_nextUid c me u hme hmem
      omega
    rw [hnil]
    rfl
  have hmatsEq :
      (c.materials ++ genMaterials (nextUid c)).filter
          (fun mat => matUsers c.meshes mat != 0) = c.materials := by
    rw [List.filter_append]
    have h1 : c.materials.filter (fun mat => matUsers c.meshes mat != 0) =
        c.materials := by
      apply List.filter_eq_self.mpr
      intro mat hm
      exact bne_iff_ne.mpr (hmat mat hm)
    have h2 : (genMaterials (nextUid c)).filter
        (fun mat => matUsers c.meshes mat != 0) = [] := by
      apply List.filter_eq_nil.mpr
      intro mat hm
      fin_cases hm <;> (simp; apply hfresh; omega)
    rw [h1, h2, List.append_nil]
  ext1
  · exact hobj.symm
  · exact hmeshesEq
  · exact harmsEq
  · show (c.materials ++ genMaterials (nextUid c)).filter
        (fun mat => matUsers ((c.meshes ++ genMeshes (nextUid c)).filter
          (fun m => meshUsers [] m != 0)) mat != 0) = c.materials
    rw [hmeshesEq]
    exact hmatsEq
  · exact hact.symm

/-- C9.  Regeneration idempotence: a second `clear_scene` + full
generation run is a no-op — the scene states after the first and second
runs are literally equal, so bone counts, body-part counts,
material-name lists, action-name lists and object-name lists all
coincide, with no duplicated or suffixed entries and nothing orphaned
left over from the first run. -/
theorem regeneration_idempotence :
    ∀ s : SceneState,
      mainModel (mainModel s) = mainModel s ∧
      boneCount (mainModel (mainModel s)) = boneCount (mainModel s) ∧
      partCount (mainModel (mainModel s)) = partCount (mainModel s) ∧
      materialNames (mainModel (mainModel s)) = materialNames (mainModel s) ∧
      actionNames (mainModel (mainModel s)) = actionNames (mainModel s) ∧
      objectNames (mainModel (mainModel s)) = objectNames (mainModel s) := by
  intro s
  have key : clear_scene (mainModel s) = clear_scene s :=
    clear_addGenerated (clear_scene s) (clear_scene_postClear s)
  have hmain : mainModel (mainModel s) = mainModel s := by
    show addGenerated (clear_scene (mainModel s)) = mainModel s
    rw [key]
    rfl
  exact ⟨hmain, by rw [hmain], by rw [hmain], by rw [hmain], by rw [hmain],
    by rw [hmain]⟩

/-- Witness for C9 on `demoScene`: the second run reproduces the first
exactly; the concrete material-name list (the fake-user survivor plus
the eight generated names, unsuffixed and unduplicated) evaluates as
expected. -/
theorem regeneration_idempotence_witness :
    mainModel (mainModel demoScene) = mainModel demoScene ∧
    materialNames (mainModel demoScene) =
      ["OldSkin", "OrcSkin", "OrcSkinDark", "OrcMouth", "OrcEyes",
       "OrcLeather", "OrcMetal", "OrcWood", "OrcTeeth"] :=
  ⟨(regeneration_idempotence demoScene).1, by decide⟩
